import Mathlib

/-!
Shallow embedding of the WebGL random-circles demo
(`src/scripts/circles.js`, with `src/scripts/app.js` holding byte-identical
copies of the shared helpers `makeShader`, `createAttribute`, `createBuffer`).

Modelling conventions:
* JavaScript numbers are modelled as rationals (`ℚ`).
* `Math.random()` is modelled as an ambient stream `rand : Nat → ℚ`; each call
  consumes the next stream element, and the fact that `Math.random()` returns
  values in `[0, 1)` is stated as a hypothesis where a property depends on it.
* A `Float32Array` is modelled as a `List ℚ` (float rounding is not modelled);
  element stores use `List.set`, which silently ignores out-of-range indices,
  exactly as JavaScript typed-array stores do.
* A thrown JavaScript exception is modelled by `none` (for
  `generateCircleUniformData`) or by a `some errorMessage` component / an
  `Except.error` (for the GL helpers).
* WebGL side effects are modelled as a trace (`List GLOp`) of the GL calls
  issued, in order; the `gl` context object itself carries no other state that
  the verified helpers read.
-/

namespace CirclesJS

/-- `const NUM_CIRCLES = 12;` — module-level constant of `circles.js`. -/
def NUM_CIRCLES : Nat := 12

/-- `const CIRCLE_ELEMENTS = 3;` — local constant of `generateCircleUniformData`. -/
def CIRCLE_ELEMENTS : Nat := 3

/-- The `radiusLimits` argument `{min, max}` of `generateCircleUniformData`. -/
structure RadiusLimits where
  min : ℚ
  max : ℚ

/-- The `canvasDimensions` argument `{width, height}`. -/
structure CanvasDimensions where
  width : ℚ
  height : ℚ

/-- One circle record `{x, y, r}` pushed onto the `circles` array. -/
structure Circle where
  x : ℚ
  y : ℚ
  r : ℚ
deriving DecidableEq

/-- `canvasDimensions.width < canvasDimensions.height ? width : height`
(the `sizeLimit` local of `generateCircleUniformData`). -/
def sizeLimit (cd : CanvasDimensions) : ℚ :=
  if cd.width < cd.height then cd.width else cd.height

/-- One iteration of the generation loop of `generateCircleUniformData`
(circles.js lines 280–289): three successive `Math.random()` draws produce
`radius`, `x`, `y`; iteration `i` consumes stream elements `3*i .. 3*i+2`. -/
def genCircle (rand : Nat → ℚ) (MIN_RADIUS MAX_RADIUS : ℚ) (cd : CanvasDimensions)
    (i : Nat) : Circle :=
  let radius := rand (3 * i) * (MAX_RADIUS - MIN_RADIUS) + MIN_RADIUS
  let x := rand (3 * i + 1) * (cd.width - 2 * radius) + radius
  let y := rand (3 * i + 2) * (cd.height - 2 * radius) + radius
  ⟨x, y, radius⟩

/-- The `circles` array built by the first loop of `generateCircleUniformData`:
`numCircles` records, where `MAX_RADIUS = sizeLimit / radiusLimits.max` and
`MIN_RADIUS = sizeLimit / radiusLimits.min`. -/
def generateCircles (rand : Nat → ℚ) (numCircles : Nat) (radiusLimits : RadiusLimits)
    (cd : CanvasDimensions) : List Circle :=
  (List.range numCircles).map
    (genCircle rand (sizeLimit cd / radiusLimits.min) (sizeLimit cd / radiusLimits.max) cd)

/-- The three stores of one iteration of the packing loop:
`uniformData[baseIndex+0] = circle.x` etc.  `List.set` ignores out-of-range
indices, as a `Float32Array` store does. -/
def writeCircle (arr : List ℚ) (baseIndex : Nat) (c : Circle) : List ℚ :=
  ((arr.set baseIndex c.x).set (baseIndex + 1) c.y).set (baseIndex + 2) c.r

/-- The packing loop `for (let i = 0; i < NUM_CIRCLES; i++)` of
`generateCircleUniformData`, with `k` iterations left and current index `i`.
Reading `circles[i]` past the end of `circles` yields JavaScript `undefined`,
and the subsequent `circle.x` access throws a `TypeError`, modelled by `none`. -/
def packAux (circles : List Circle) : Nat → Nat → List ℚ → Option (List ℚ)
  | 0, _, arr => some arr
  | k + 1, i, arr =>
    match circles[i]? with
    | none => none
    | some c => packAux circles k (i + 1) (writeCircle arr (CIRCLE_ELEMENTS * i) c)

/-- `generateCircleUniformData(numCircles, radiusLimits, canvasDimensions)`
(circles.js lines 269–301): generates `numCircles` circle records, allocates
`new Float32Array(CIRCLE_ELEMENTS * numCircles)` (all zeros), then packs
records with a loop bounded by the module constant `NUM_CIRCLES`.  `none`
models a thrown exception. -/
def generateCircleUniformData (rand : Nat → ℚ) (numCircles : Nat)
    (radiusLimits : RadiusLimits) (cd : CanvasDimensions) : Option (List ℚ) :=
  let circles := generateCircles rand numCircles radiusLimits cd
  packAux circles NUM_CIRCLES 0 (List.replicate (CIRCLE_ELEMENTS * numCircles) 0)

/-- WebGL enum `gl.VERTEX_SHADER`. -/
def VERTEX_SHADER : Nat := 35633

/-- WebGL enum `gl.FRAGMENT_SHADER`. -/
def FRAGMENT_SHADER : Nat := 35632

/-- WebGL enum `gl.FLOAT`. -/
def GL_FLOAT : Nat := 5126

/-- WebGL enum `gl.ARRAY_BUFFER` (the default `type` argument of `createBuffer`). -/
def ARRAY_BUFFER : Nat := 34962

/-- WebGL enum `gl.STATIC_DRAW` (the default `bufferDataType` argument). -/
def STATIC_DRAW : Nat := 35044

/-- `Float32Array.BYTES_PER_ELEMENT` (the default `typeSize` argument of
`createAttribute`). -/
def BYTES_PER_ELEMENT : Nat := 4

/-- The part of the `gl` context that `makeShader` consults: per (stage, source)
compile status (`gl.getShaderParameter(shader, gl.COMPILE_STATUS)`) and
diagnostic log (`gl.getShaderInfoLog(shader)`). -/
structure ShaderCompiler where
  compileOk : Nat → String → Bool
  infoLog : Nat → String → String

/-- The ternary `shaderType === gl.VERTEX_SHADER ? "vertex" : "fragment"`
inside `makeShader`'s error message. -/
def stageName (shaderType : Nat) : String :=
  if shaderType = VERTEX_SHADER then "vertex" else "fragment"

/-- `makeShader(gl, shaderSource, shaderType)` (circles.js lines 114–126):
creates a shader (modelled as the pair of its stage and source), compiles it,
and throws `ERROR compiling <stage> shader: <log>` on compile failure. -/
def makeShader (glc : ShaderCompiler) (shaderSource : String) (shaderType : Nat) :
    Except String (Nat × String) :=
  if glc.compileOk shaderType shaderSource then
    Except.ok (shaderType, shaderSource)
  else
    Except.error
      ("ERROR compiling " ++ stageName shaderType ++ " shader: "
        ++ glc.infoLog shaderType shaderSource)

/-- The attribute object returned by `createAttribute`. -/
structure AttributeObject where
  name : String
  size : Nat
  stride : Nat
  offset : Nat
  type : Nat
  normalized : Bool

/-- `createAttribute(name, numElements, numVertex, type, offset, typeSize,
normalized)` (circles.js lines 189–206).  The JavaScript defaults are
`offset = 0`, `typeSize = Float32Array.BYTES_PER_ELEMENT = 4`,
`normalized = false`; here all arguments are passed explicitly. -/
def createAttribute (name : String) (numElements numVertex ty offset typeSize : Nat)
    (normalized : Bool) : AttributeObject :=
  ⟨name, numElements, numVertex * typeSize, offset * typeSize, ty, normalized⟩

/-- The part of a linked `WebGLProgram` that `createBuffer` consults:
`gl.getAttribLocation(program, name)`, returning `-1` when the program has no
attribute of that name. -/
structure GLProgram where
  attribLocation : String → Int

/-- One WebGL call recorded in the effect trace of `createBuffer`. -/
inductive GLOp where
  | createBufferOp : GLOp
  | bindBufferOp (ty : Nat) : GLOp
  | bufferDataOp (ty : Nat) (data : List ℚ) (usage : Nat) : GLOp
  | vertexAttribPointerOp (loc : Int) (size : Nat) (ty : Nat) (normalized : Bool)
      (stride : Nat) (offset : Nat) : GLOp
  | enableVertexAttribArrayOp (loc : Int) : GLOp
deriving DecidableEq

/-- The two GL calls `createBuffer` issues for one successfully looked-up
attribute: `gl.vertexAttribPointer(...)` then `gl.enableVertexAttribArray(...)`. -/
def attrOps (prog : GLProgram) (attr : AttributeObject) : List GLOp :=
  [GLOp.vertexAttribPointerOp (prog.attribLocation attr.name) attr.size attr.type
      attr.normalized attr.stride attr.offset,
    GLOp.enableVertexAttribArrayOp (prog.attribLocation attr.name)]

/-- The `attributes.forEach` loop of `createBuffer`: for each attribute, look up
its location; on `-1` throw `Can not find attribute <name>.` (aborting the
loop); otherwise issue its two GL calls and continue.  Returns the trace of GL
calls issued by the loop together with the thrown message, if any. -/
def configAttrs (prog : GLProgram) : List AttributeObject → List GLOp × Option String
  | [] => ([], none)
  | attr :: rest =>
    if prog.attribLocation attr.name = -1 then
      ([], some ("Can not find attribute " ++ attr.name ++ "."))
    else
      let r := configAttrs prog rest
      (attrOps prog attr ++ r.1, r.2)

/-- `createBuffer(gl, program, bufferData, attributes, type, bufferDataType)`
(circles.js lines 218–246): creates and binds a buffer and uploads
`bufferData`, then runs the attribute loop.  The result is the full trace of GL
calls issued (in order) and the thrown error message, if any. -/
def createBuffer (prog : GLProgram) (bufferData : List ℚ)
    (attributes : List AttributeObject) (ty usage : Nat) : List GLOp × Option String :=
  let r := configAttrs prog attributes
  ([GLOp.createBufferOp, GLOp.bindBufferOp ty, GLOp.bufferDataOp ty bufferData usage]
      ++ r.1,
    r.2)

/-- A concrete `Math.random()` stream returning `0.5` forever, used for
concrete evaluations. -/
def halfRand : Nat → ℚ := fun _ => 1 / 2

/-- A concrete linked program exposing exactly one attribute, `vertPosition`,
at location `0` (as the repository's vertex shader does). -/
def progW : GLProgram := ⟨fun n => if n = "vertPosition" then 0 else -1⟩

/-- The repository's actual attribute descriptor
`createAttribute("vertPosition", 2, 2, gl.FLOAT)`. -/
def attrPos : AttributeObject :=
  createAttribute "vertPosition" 2 2 GL_FLOAT 0 BYTES_PER_ELEMENT false

/-- An attribute descriptor whose name the program does not expose. -/
def attrMissing : AttributeObject :=
  createAttribute "doesNotExist" 3 5 GL_FLOAT 2 BYTES_PER_ELEMENT false

/-- An attribute descriptor listed after the missing one. -/
def attrLater : AttributeObject :=
  createAttribute "vertColor" 3 5 GL_FLOAT 2 BYTES_PER_ELEMENT false

/-- The data-model invariant claimed for attribute descriptors (spec §3):
`componentCount ∈ {1,2,3,4}` and
`offsetBytes + componentCount × elementSize ≤ strideBytes`. -/
def attrInvariant (elementSize : Nat) (a : AttributeObject) : Prop :=
  (a.size = 1 ∨ a.size = 2 ∨ a.size = 3 ∨ a.size = 4) ∧
    a.offset + a.size * elementSize ≤ a.stride

/-- Every member of the `circles` array is `genCircle` at some index `i < numCircles`. -/
theorem mem_generateCircles {rand : Nat → ℚ} {numCircles : Nat}
    {radiusLimits : RadiusLimits} {cd : CanvasDimensions} {c : Circle}
    (hc : c ∈ generateCircles rand numCircles radiusLimits cd) :
    ∃ i < numCircles,
      c = genCircle rand (sizeLimit cd / radiusLimits.min)
            (sizeLimit cd / radiusLimits.max) cd i := by
  obtain ⟨i, hi, rfl⟩ := List.mem_map.mp hc
  exact ⟨i, List.mem_range.mp hi, rfl⟩

/-- The affine random draw `t * (MAX - MIN) + MIN` with `t ∈ [0, 1)` stays in
`[MIN, MAX]` whenever `MIN ≤ MAX`. -/
theorem affine_draw_bounds {t MIN MAX : ℚ} (ht0 : 0 ≤ t) (ht1 : t < 1)
    (hMM : MIN ≤ MAX) : MIN ≤ t * (MAX - MIN) + MIN ∧ t * (MAX - MIN) + MIN ≤ MAX := by
  constructor
  · nlinarith [mul_nonneg ht0 (sub_nonneg.mpr hMM)]
  · nlinarith [mul_nonneg (sub_nonneg.mpr ht1.le) (sub_nonneg.mpr hMM)]

/-- C7: `createAttribute(name, numElements, numVertex, type, offset, typeSize,
normalized)` returns a descriptor with exactly `offsetBytes = offset × typeSize`
and `strideBytes = numVertex × typeSize`, for all non-negative integer inputs,
with no I/O and no failure path (it is a total pure function). -/
theorem createAttribute_stride_offset (name : String)
    (numElements numVertex ty offset typeSize : Nat) (normalized : Bool) :
    (createAttribute name numElements numVertex ty offset typeSize normalized).offset
        = offset * typeSize ∧
      (createAttribute name numElements numVertex ty offset typeSize normalized).stride
        = numVertex * typeSize :=
  ⟨rfl, rfl⟩

/-- C8 counterexample: `createAttribute` performs no validation, so it happily
builds a descriptor with `componentCount = 5 ∉ {1,2,3,4}` and
`offsetBytes + componentCount × elementSize = 20 > strideBytes = 4`,
violating the claimed data-model invariant. -/
theorem createAttribute_invariant_cex :
    ¬ attrInvariant BYTES_PER_ELEMENT
        (createAttribute "badAttr" 5 1 GL_FLOAT 0 BYTES_PER_ELEMENT false) := by
  unfold attrInvariant
  decide

/-- C8 (amended): a descriptor built by `createAttribute` satisfies the
data-model invariant provided the caller passes `numElements ∈ {1,2,3,4}` and
`offset + numElements ≤ numVertex`; the builder itself does not validate this. -/
theorem createAttribute_invariant_of_fitting (name : String)
    (numElements numVertex ty offset typeSize : Nat) (normalized : Bool)
    (hcount : numElements = 1 ∨ numElements = 2 ∨ numElements = 3 ∨ numElements = 4)
    (hfit : offset + numElements ≤ numVertex) :
    attrInvariant typeSize
      (createAttribute name numElements numVertex ty offset typeSize normalized) := by
  refine ⟨hcount, ?_⟩
  show offset * typeSize + numElements * typeSize ≤ numVertex * typeSize
  rw [← Nat.add_mul]
  exact Nat.mul_le_mul_right typeSize hfit

/-- Witness for C8: the repository's own call
`createAttribute("vertPosition", 2, 2, gl.FLOAT)` satisfies the invariant. -/
theorem createAttribute_invariant_of_fitting_witness :
    attrInvariant BYTES_PER_ELEMENT
      (createAttribute "vertPosition" 2 2 GL_FLOAT 0 BYTES_PER_ELEMENT false) :=
  createAttribute_invariant_of_fitting "vertPosition" 2 2 GL_FLOAT 0 BYTES_PER_ELEMENT
    false (by decide) (by decide)

/-- C6: when the compiler reports a non-success status, `makeShader` throws an
error whose message is exactly `ERROR compiling <stage> shader: <log>`, where
`<stage>` matches the stage argument (`"vertex"` for `gl.VERTEX_SHADER`,
`"fragment"` for `gl.FRAGMENT_SHADER`) and `<log>` is the full diagnostic log. -/
theorem makeShader_compile_error (glc : ShaderCompiler) (shaderSource : String)
    (shaderType : Nat) (hfail : glc.compileOk shaderType shaderSource = false) :
    makeShader glc shaderSource shaderType =
        Except.error ("ERROR compiling " ++ stageName shaderType ++ " shader: "
          ++ glc.infoLog shaderType shaderSource) ∧
      (shaderType = VERTEX_SHADER → stageName shaderType = "vertex") ∧
      (shaderType = FRAGMENT_SHADER → stageName shaderType = "fragment") := by
  refine ⟨by simp [makeShader, hfail], fun h => by simp [stageName, h], fun h => ?_⟩
  subst h
  simp [stageName, VERTEX_SHADER, FRAGMENT_SHADER]

/-- Witness for C6: a failing fragment-stage compile with log `"syntax error"`
reports stage `"fragment"` and the non-empty log in the thrown message. -/
theorem makeShader_compile_error_witness :
    makeShader ⟨fun _ _ => false, fun _ _ => "syntax error"⟩ "bad" FRAGMENT_SHADER =
        Except.error "ERROR compiling fragment shader: syntax error" ∧
      "syntax error" ≠ "" := by
  have h := makeShader_compile_error ⟨fun _ _ => false, fun _ _ => "syntax error"⟩
    "bad" FRAGMENT_SHADER rfl
  refine ⟨?_, by decide⟩
  rw [h.1]
  simp [stageName, VERTEX_SHADER, FRAGMENT_SHADER]

/-- C1: contrary to the claim (and to the function's own documentation),
`generateCircleUniformData(count, ...)` does not return a `3×count`-length
packed array for every `count ≥ 0`: its packing loop is bounded by the module
constant `NUM_CIRCLES = 12`, so already at `count = 0` it reads past the end of
the generated `circles` array and throws (modelled by `none`). -/
theorem generateCircleUniformData_throws_at_zero :
    generateCircleUniformData halfRand 0 ⟨50, 4⟩ ⟨100, 100⟩ = none := by
  decide

/-- C2: the spec's end-to-end example `generateCircles(3, {min:50, max:4},
{width:100, height:100})` does not return three records at all: the packing
loop runs to `NUM_CIRCLES = 12`, reads `circles[3]` (undefined) and throws
(modelled by `none`). -/
theorem generateCircleUniformData_throws_at_three :
    generateCircleUniformData halfRand 3 ⟨50, 4⟩ ⟨100, 100⟩ = none := by
  decide

/-- C3 (amended): with `sizeLimit` the smaller canvas dimension,
`MAX_RADIUS = sizeLimit / radiusLimits.max` and `MIN_RADIUS = sizeLimit /
radiusLimits.min` (larger divisor, smaller radius), and under the precondition
`0 < radiusLimits.max < radiusLimits.min` — strengthened with `0 < sizeLimit`,
without which a degenerate canvas yields radius `0` — every generated record
satisfies `MIN_RADIUS ≤ r ≤ MAX_RADIUS` and `0 < r`. -/
theorem generateCircles_radius_in_range (rand : Nat → ℚ) (numCircles : Nat)
    (radiusLimits : RadiusLimits) (cd : CanvasDimensions)
    (hrand : ∀ k, 0 ≤ rand k ∧ rand k < 1)
    (hmax : 0 < radiusLimits.max) (hlt : radiusLimits.max < radiusLimits.min)
    (hsize : 0 < sizeLimit cd) :
    ∀ c ∈ generateCircles rand numCircles radiusLimits cd,
      sizeLimit cd / radiusLimits.min ≤ c.r ∧ c.r ≤ sizeLimit cd / radiusLimits.max ∧
        0 < c.r := by
  intro c hc
  obtain ⟨i, hi, rfl⟩ := mem_generateCircles hc
  obtain ⟨ht0, ht1⟩ := hrand (3 * i)
  have hmin : 0 < radiusLimits.min := hmax.trans hlt
  have hMINpos : 0 < sizeLimit cd / radiusLimits.min := div_pos hsize hmin
  have hMM : sizeLimit cd / radiusLimits.min ≤ sizeLimit cd / radiusLimits.max := by
    rw [div_le_div_iff₀ hmin hmax]
    exact mul_le_mul_of_nonneg_left hlt.le hsize.le
  have hb := affine_draw_bounds ht0 ht1 hMM
  exact ⟨hb.1, hb.2, lt_of_lt_of_le hMINpos hb.1⟩

/-- C3 counterexample: on a zero-sized canvas the claim's stated preconditions
(`0 < max < min`, a valid `Math.random()` stream) all hold, yet the generated
record has radius `0`, refuting the claimed `radius > 0`. -/
theorem generateCircles_zero_canvas_radius_not_pos :
    ((0:ℚ) < 4 ∧ (4:ℚ) < 50 ∧ (∀ k, 0 ≤ halfRand k ∧ halfRand k < 1)) ∧
      (generateCircles halfRand 1 ⟨50, 4⟩ ⟨0, 0⟩).map Circle.r = [0] := by
  refine ⟨⟨by norm_num, by norm_num,
    fun k => ⟨by norm_num [halfRand], by norm_num [halfRand]⟩⟩, ?_⟩
  norm_num [generateCircles, genCircle, sizeLimit, halfRand, List.range_succ]

/-- Witness for C3: for `{min:50, max:4}` on a `100×100` canvas the single
generated record (from the constant-`0.5` stream) has radius `27/2`, inside
`[100/50, 100/4]` and positive. -/
theorem generateCircles_radius_in_range_witness :
    sizeLimit ⟨100, 100⟩ / (50:ℚ) ≤ 27/2 ∧
      (27/2 : ℚ) ≤ sizeLimit ⟨100, 100⟩ / 4 ∧ (0:ℚ) < 27/2 :=
  generateCircles_radius_in_range halfRand 1 ⟨50, 4⟩ ⟨100, 100⟩
    (fun k => ⟨by norm_num [halfRand], by norm_num [halfRand]⟩)
    (by norm_num) (by norm_num) (by norm_num [sizeLimit])
    ⟨50, 50, 27/2⟩
    (by norm_num [generateCircles, genCircle, sizeLimit, halfRand, List.range_succ])

/-- C4 (amended): every generated record keeps its bounding box inside the
canvas — `r ≤ x ≤ width − r` and `r ≤ y ≤ height − r` — provided (beyond the
claim's wording, which asserted this for all accepted inputs) that
`2 ≤ radiusLimits.max ≤ radiusLimits.min` and the canvas dimensions are
non-negative; with a divisor below 2 the radius may exceed half the canvas and
the invariant fails. -/
theorem generateCircles_bounding_box (rand : Nat → ℚ) (numCircles : Nat)
    (radiusLimits : RadiusLimits) (cd : CanvasDimensions)
    (hrand : ∀ k, 0 ≤ rand k ∧ rand k < 1)
    (hmax2 : 2 ≤ radiusLimits.max) (hle : radiusLimits.max ≤ radiusLimits.min)
    (hw : 0 ≤ cd.width) (hh : 0 ≤ cd.height) :
    ∀ c ∈ generateCircles rand numCircles radiusLimits cd,
      c.r ≤ c.x ∧ c.x ≤ cd.width - c.r ∧ c.r ≤ c.y ∧ c.y ≤ cd.height - c.r := by
  intro c hc
  obtain ⟨i, hi, rfl⟩ := mem_generateCircles hc
  obtain ⟨ht0, ht1⟩ := hrand (3 * i)
  obtain ⟨hu0, hu1⟩ := hrand (3 * i + 1)
  obtain ⟨hv0, hv1⟩ := hrand (3 * i + 2)
  have hmax : (0:ℚ) < radiusLimits.max := lt_of_lt_of_le (by norm_num) hmax2
  have hmin : (0:ℚ) < radiusLimits.min := lt_of_lt_of_le hmax hle
  have hs0 : 0 ≤ sizeLimit cd := by
    unfold sizeLimit
    split <;> assumption
  have hsW : sizeLimit cd ≤ cd.width := by
    unfold sizeLimit
    split
    · exact le_refl _
    · exact le_of_not_lt (by assumption)
  have hsH : sizeLimit cd ≤ cd.height := by
    unfold sizeLimit
    split
    · exact le_of_lt (by assumption)
    · exact le_refl _
  have hMM : sizeLimit cd / radiusLimits.min ≤ sizeLimit cd / radiusLimits.max := by
    rw [div_le_div_iff₀ hmin hmax]
    exact mul_le_mul_of_nonneg_left hle hs0
  have hMIN0 : 0 ≤ sizeLimit cd / radiusLimits.min := div_nonneg hs0 hmin.le
  have hb := affine_draw_bounds ht0 ht1 hMM
  have hhalf : sizeLimit cd / radiusLimits.max ≤ sizeLimit cd / 2 := by
    rw [div_le_div_iff₀ hmax (by norm_num : (0:ℚ) < 2)]
    exact mul_le_mul_of_nonneg_left hmax2 hs0
  simp only [genCircle]
  set r := rand (3 * i) * (sizeLimit cd / radiusLimits.max
    - sizeLimit cd / radiusLimits.min) + sizeLimit cd / radiusLimits.min with hr
  have hr0 : 0 ≤ r := le_trans hMIN0 hb.1
  have h2r : 2 * r ≤ sizeLimit cd := by
    have : r ≤ sizeLimit cd / 2 := le_trans hb.2 hhalf
    linarith [(le_div_iff₀ (by norm_num : (0:ℚ) < 2)).mp this]
  have hWr : 0 ≤ cd.width - 2 * r := by linarith
  have hHr : 0 ≤ cd.height - 2 * r := by linarith
  refine ⟨?_, ?_, ?_, ?_⟩
  · nlinarith [mul_nonneg hu0 hWr]
  · nlinarith [mul_nonneg (sub_nonneg.mpr hu1.le) hWr]
  · nlinarith [mul_nonneg hv0 hHr]
  · nlinarith [mul_nonneg (sub_nonneg.mpr hv1.le) hHr]

/-- C4 counterexample: with `radiusLimits = {min:2, max:1}` (sane per the
claim: `0 < max < min`) on a `100×100` canvas, the constant-`0.5` stream
generates the record `(x, y, r) = (50, 50, 75)`, violating `r ≤ x`. -/
theorem generateCircles_radius_exceeds_box :
    ((0:ℚ) < 1 ∧ (1:ℚ) < 2 ∧ (∀ k, 0 ≤ halfRand k ∧ halfRand k < 1)) ∧
      generateCircles halfRand 1 ⟨2, 1⟩ ⟨100, 100⟩ = [⟨50, 50, 75⟩] ∧
      ¬ ((75:ℚ) ≤ 50) := by
  refine ⟨⟨by norm_num, by norm_num,
    fun k => ⟨by norm_num [halfRand], by norm_num [halfRand]⟩⟩, ?_, by norm_num⟩
  norm_num [generateCircles, genCircle, sizeLimit, halfRand, List.range_succ]

/-- Witness for C4: the repository's configuration `{min:50, max:4}` on a
`100×100` canvas yields the record `(50, 50, 27/2)`, whose bounding box lies
inside the canvas. -/
theorem generateCircles_bounding_box_witness :
    (27/2 : ℚ) ≤ 50 ∧ (50:ℚ) ≤ 100 - 27/2 ∧
      (27/2 : ℚ) ≤ 50 ∧ (50:ℚ) ≤ 100 - 27/2 :=
  generateCircles_bounding_box halfRand 1 ⟨50, 4⟩ ⟨100, 100⟩
    (fun k => ⟨by norm_num [halfRand], by norm_num [halfRand]⟩)
    (by norm_num) (by norm_num) (by norm_num) (by norm_num)
    ⟨50, 50, 27/2⟩
    (by norm_num [generateCircles, genCircle, sizeLimit, halfRand, List.range_succ])

/-- The attribute loop on `good ++ bad :: rest`, when every name in `good`
resolves and `bad`'s does not: it issues exactly the GL calls for `good`, in
order, and throws `Can not find attribute <bad.name>.`; nothing from `rest`
(nor `bad`) is issued. -/
theorem configAttrs_append_fail (prog : GLProgram) (good : List AttributeObject)
    (bad : AttributeObject) (rest : List AttributeObject)
    (hgood : ∀ b ∈ good, prog.attribLocation b.name ≠ -1)
    (hbad : prog.attribLocation bad.name = -1) :
    configAttrs prog (good ++ bad :: rest) =
      (good.flatMap (attrOps prog),
        some ("Can not find attribute " ++ bad.name ++ ".")) := by
  induction good with
  | nil => simp [configAttrs, hbad]
  | cons a as ih =>
    have ha : prog.attribLocation a.name ≠ -1 := hgood a (by simp)
    have hrec := ih (fun b hb => hgood b (by simp [hb]))
    simp [configAttrs, ha, hrec]

/-- C5: when `createBuffer` meets an attribute whose name has no location in
the program (lookup returns `-1`), with all earlier lookups succeeding, it
throws `Can not find attribute <name>.` carrying that attribute's name, and
the trace of issued GL calls contains only the buffer setup and the
configuration of the attributes before the failing one — nothing after it is
configured or enabled. -/
theorem createBuffer_missing_attribute (prog : GLProgram) (bufferData : List ℚ)
    (good : List AttributeObject) (bad : AttributeObject) (rest : List AttributeObject)
    (ty usage : Nat)
    (hgood : ∀ b ∈ good, prog.attribLocation b.name ≠ -1)
    (hbad : prog.attribLocation bad.name = -1) :
    (createBuffer prog bufferData (good ++ bad :: rest) ty usage).2 =
        some ("Can not find attribute " ++ bad.name ++ ".") ∧
      (createBuffer prog bufferData (good ++ bad :: rest) ty usage).1 =
        [GLOp.createBufferOp, GLOp.bindBufferOp ty,
            GLOp.bufferDataOp ty bufferData usage]
          ++ good.flatMap (attrOps prog) := by
  have h := configAttrs_append_fail prog good bad rest hgood hbad
  exact ⟨by simp [createBuffer, h], by simp [createBuffer, h]⟩

/-- Witness for C5: against a program exposing only `vertPosition`, a list
`[vertPosition, doesNotExist, vertColor]` fails at `doesNotExist` with the
name in the message, having configured only `vertPosition`. -/
theorem createBuffer_missing_attribute_witness :
    (createBuffer progW [1, 2] ([attrPos] ++ attrMissing :: [attrLater])
        ARRAY_BUFFER STATIC_DRAW).2 =
        some ("Can not find attribute " ++ "doesNotExist" ++ ".") ∧
      (createBuffer progW [1, 2] ([attrPos] ++ attrMissing :: [attrLater])
          ARRAY_BUFFER STATIC_DRAW).1 =
        [GLOp.createBufferOp, GLOp.bindBufferOp ARRAY_BUFFER,
            GLOp.bufferDataOp ARRAY_BUFFER [1, 2] STATIC_DRAW]
          ++ [attrPos].flatMap (attrOps progW) :=
  createBuffer_missing_attribute progW [1, 2] [attrPos] attrMissing [attrLater]
    ARRAY_BUFFER STATIC_DRAW (by decide) (by decide)

/-- C10: `createBuffer` creates, binds and uploads the buffer before any
attribute-name lookup, so when it throws the attribute-not-found error the
trace already begins with the three buffer calls and contains the
configure-and-enable calls of every attribute preceding the failing one: the
GPU state is not left unchanged on error. -/
theorem createBuffer_state_mutated_on_error (prog : GLProgram) (bufferData : List ℚ)
    (good : List AttributeObject) (bad : AttributeObject) (rest : List AttributeObject)
    (ty usage : Nat)
    (hgood : ∀ b ∈ good, prog.attribLocation b.name ≠ -1)
    (hbad : prog.attribLocation bad.name = -1) :
    (createBuffer prog bufferData (good ++ bad :: rest) ty usage).2 ≠ none ∧
      (createBuffer prog bufferData (good ++ bad :: rest) ty usage).1.take 3 =
        [GLOp.createBufferOp, GLOp.bindBufferOp ty,
          GLOp.bufferDataOp ty bufferData usage] ∧
      ∀ b ∈ good,
        GLOp.vertexAttribPointerOp (prog.attribLocation b.name) b.size b.type
            b.normalized b.stride b.offset
          ∈ (createBuffer prog bufferData (good ++ bad :: rest) ty usage).1 ∧
        GLOp.enableVertexAttribArrayOp (prog.attribLocation b.name)
          ∈ (createBuffer prog bufferData (good ++ bad :: rest) ty usage).1 := by
  have h := configAttrs_append_fail prog good bad rest hgood hbad
  have htr : (createBuffer prog bufferData (good ++ bad :: rest) ty usage).1 =
      [GLOp.createBufferOp, GLOp.bindBufferOp ty, GLOp.bufferDataOp ty bufferData usage]
        ++ good.flatMap (attrOps prog) := by
    simp [createBuffer, h]
  refine ⟨by simp [createBuffer, h], by rw [htr]; rfl, ?_⟩
  intro b hb
  constructor
  · rw [htr]
    exact List.mem_append_right _ (List.mem_flatMap_of_mem hb (by simp [attrOps]))
  · rw [htr]
    exact List.mem_append_right _ (List.mem_flatMap_of_mem hb (by simp [attrOps]))

/-- Witness for C10: in the concrete failing run of C5's witness, the buffer
upload calls head the trace and `vertPosition` (before the failing name) is
configured and enabled. -/
theorem createBuffer_state_mutated_on_error_witness :
    (createBuffer progW [1, 2] ([attrPos] ++ attrMissing :: [attrLater])
        ARRAY_BUFFER STATIC_DRAW).2 ≠ none ∧
      (createBuffer progW [1, 2] ([attrPos] ++ attrMissing :: [attrLater])
          ARRAY_BUFFER STATIC_DRAW).1.take 3 =
        [GLOp.createBufferOp, GLOp.bindBufferOp ARRAY_BUFFER,
          GLOp.bufferDataOp ARRAY_BUFFER [1, 2] STATIC_DRAW] ∧
      (GLOp.vertexAttribPointerOp 0 2 GL_FLOAT false 8 0 ∈
          (createBuffer progW [1, 2] ([attrPos] ++ attrMissing :: [attrLater])
            ARRAY_BUFFER STATIC_DRAW).1 ∧
        GLOp.enableVertexAttribArrayOp 0 ∈
          (createBuffer progW [1, 2] ([attrPos] ++ attrMissing :: [attrLater])
            ARRAY_BUFFER STATIC_DRAW).1) := by
  have h := createBuffer_state_mutated_on_error progW [1, 2] [attrPos] attrMissing
    [attrLater] ARRAY_BUFFER STATIC_DRAW (by decide) (by decide)
  exact ⟨h.1, h.2.1, h.2.2 attrPos (List.mem_singleton.mpr rfl)⟩

/-- `writeCircle` preserves the array length (typed-array stores never grow). -/
theorem writeCircle_length (arr : List ℚ) (b : Nat) (c : Circle) :
    (writeCircle arr b c).length = arr.length := by
  simp [writeCircle]

/-- Entries outside the three written slots are untouched by `writeCircle`. -/
theorem writeCircle_getElem?_of_ne (arr : List ℚ) (b : Nat) (c : Circle) {m : Nat}
    (h0 : m ≠ b) (h1 : m ≠ b + 1) (h2 : m ≠ b + 2) :
    (writeCircle arr b c)[m]? = arr[m]? := by
  unfold writeCircle
  rw [List.getElem?_set_ne (Ne.symm h2), List.getElem?_set_ne (Ne.symm h1),
    List.getElem?_set_ne (Ne.symm h0)]

/-- The three written slots hold the circle's fields when in bounds. -/
theorem writeCircle_getElem?_self (arr : List ℚ) (b : Nat) (c : Circle)
    (h : b + 2 < arr.length) :
    (writeCircle arr b c)[b]? = some c.x ∧
      (writeCircle arr b c)[b + 1]? = some c.y ∧
      (writeCircle arr b c)[b + 2]? = some c.r := by
  unfold writeCircle
  refine ⟨?_, ?_, ?_⟩
  · rw [List.getElem?_set_ne (by omega), List.getElem?_set_ne (by omega)]
    exact List.getElem?_set_self (by omega)
  · rw [List.getElem?_set_ne (by omega)]
    exact List.getElem?_set_self (by simp only [List.length_set]; omega)
  · exact List.getElem?_set_self (by simp only [List.length_set]; omega)

/-- If the packing loop has more iterations left than `circles` has entries
past the current index, it reaches an out-of-range read and throws. -/
theorem packAux_eq_none {circles : List Circle} (k : Nat) :
    ∀ (i : Nat) (arr : List ℚ), circles.length < i + k → i ≤ circles.length →
      packAux circles k i arr = none := by
  induction k with
  | zero =>
    intro i arr h1 h2
    exact absurd h1 (by omega)
  | succ k ih =>
    intro i arr h1 h2
    rcases lt_or_eq_of_le h2 with hlt | heq
    · have hget : circles[i]? = some circles[i] := List.getElem?_eq_getElem hlt
      simp only [packAux, hget]
      exact ih (i + 1) _ (by omega) (by omega)
    · have hget : circles[i]? = none := List.getElem?_eq_none (by omega)
      simp only [packAux, hget]

/-- Characterization of a completed packing loop: with `k` iterations from
index `i`, all in range, the result keeps the array length, writes circle `j`'s
fields at slots `3j, 3j+1, 3j+2` for `i ≤ j < i + k`, and leaves every other
entry as it was. -/
theorem packAux_eq_some {circles : List Circle} (k : Nat) :
    ∀ (i : Nat) (arr : List ℚ), i + k ≤ circles.length → 3 * (i + k) ≤ arr.length →
      ∃ out, packAux circles k i arr = some out ∧ out.length = arr.length ∧
        (∀ m, m < 3 * i → out[m]? = arr[m]?) ∧
        (∀ m, 3 * (i + k) ≤ m → out[m]? = arr[m]?) ∧
        (∀ j, i ≤ j → j < i + k →
          out[3 * j]? = (circles[j]?).map Circle.x ∧
          out[3 * j + 1]? = (circles[j]?).map Circle.y ∧
          out[3 * j + 2]? = (circles[j]?).map Circle.r) := by
  induction k with
  | zero =>
    intro i arr h1 h2
    exact ⟨arr, rfl, rfl, fun m _ => rfl, fun m _ => rfl,
      fun j hj1 hj2 => absurd hj2 (by omega)⟩
  | succ k ih =>
    intro i arr h1 h2
    have hi : i < circles.length := by omega
    have hget : circles[i]? = some circles[i] := List.getElem?_eq_getElem hi
    obtain ⟨out, hout, holen, hlow, hhigh, hmid⟩ :=
      ih (i + 1) (writeCircle arr (3 * i) circles[i]) (by omega)
        (by rw [writeCircle_length]; omega)
    refine ⟨out, ?_, by rw [holen, writeCircle_length], ?_, ?_, ?_⟩
    · simp only [packAux, hget, CIRCLE_ELEMENTS]
      exact hout
    · intro m hm
      rw [hlow m (by omega)]
      exact writeCircle_getElem?_of_ne arr (3 * i) circles[i]
        (by omega) (by omega) (by omega)
    · intro m hm
      rw [hhigh m (by omega)]
      exact writeCircle_getElem?_of_ne arr (3 * i) circles[i]
        (by omega) (by omega) (by omega)
    · intro j hj1 hj2
      rcases Nat.eq_or_lt_of_le hj1 with rfl | hj
      · have hw := writeCircle_getElem?_self arr (3 * i) circles[i] (by omega)
        refine ⟨?_, ?_, ?_⟩
        · rw [hlow (3 * i) (by omega), hw.1, hget]
          rfl
        · rw [hlow (3 * i + 1) (by omega), hw.2.1, hget]
          rfl
        · rw [hlow (3 * i + 2) (by omega), hw.2.2, hget]
          rfl
      · exact hmid j (by omega) (by omega)

/-- C9: the packing loop of `generateCircleUniformData` is bounded by the
module constant `NUM_CIRCLES = 12`, not by the `numCircles` parameter: for
`numCircles > 12` the returned array (of length `3 × numCircles`) holds the
first 12 generated records at slots `0..35` and `0.0` at every index `≥ 36`,
the remaining records never being written; for `numCircles < 12` the function
throws instead of returning. -/
theorem generateCircleUniformData_loop_bound (rand : Nat → ℚ)
    (radiusLimits : RadiusLimits) (cd : CanvasDimensions) (numCircles : Nat) :
    (numCircles < NUM_CIRCLES →
      generateCircleUniformData rand numCircles radiusLimits cd = none) ∧
    (NUM_CIRCLES < numCircles →
      ∃ arr, generateCircleUniformData rand numCircles radiusLimits cd = some arr ∧
        arr.length = CIRCLE_ELEMENTS * numCircles ∧
        (∀ j, j < NUM_CIRCLES →
          arr[3 * j]? =
            ((generateCircles rand numCircles radiusLimits cd)[j]?).map Circle.x ∧
          arr[3 * j + 1]? =
            ((generateCircles rand numCircles radiusLimits cd)[j]?).map Circle.y ∧
          arr[3 * j + 2]? =
            ((generateCircles rand numCircles radiusLimits cd)[j]?).map Circle.r) ∧
        (∀ m, 3 * NUM_CIRCLES ≤ m → m < CIRCLE_ELEMENTS * numCircles →
          arr[m]? = some 0)) := by
  have hlen : (generateCircles rand numCircles radiusLimits cd).length = numCircles := by
    simp [generateCircles]
  constructor
  · intro h
    exact @packAux_eq_none (generateCircles rand numCircles radiusLimits cd)
      NUM_CIRCLES 0 (List.replicate (CIRCLE_ELEMENTS * numCircles) 0)
      (by rw [hlen]; simp only [NUM_CIRCLES] at h ⊢; omega) (Nat.zero_le _)
  · intro h
    obtain ⟨out, hout, holen, hlow, hhigh, hmid⟩ :=
      @packAux_eq_some (generateCircles rand numCircles radiusLimits cd)
        NUM_CIRCLES 0 (List.replicate (CIRCLE_ELEMENTS * numCircles) 0)
        (by rw [hlen]; simp only [NUM_CIRCLES] at h ⊢; omega)
        (by simp only [List.length_replicate, NUM_CIRCLES, CIRCLE_ELEMENTS] at h ⊢; omega)
    refine ⟨out, hout, by rw [holen, List.length_replicate], ?_, ?_⟩
    · intro j hj
      exact hmid j (Nat.zero_le j) (by omega)
    · intro m hm1 hm2
      rw [hhigh m (by omega), List.getElem?_replicate, if_pos hm2]

/-- Witness for C9: a call with `numCircles = 5 < 12` throws, and a call with
`numCircles = 13 > 12` returns an array of length `3 × 13 = 39`. -/
theorem generateCircleUniformData_loop_bound_witness :
    generateCircleUniformData halfRand 5 ⟨50, 4⟩ ⟨100, 100⟩ = none ∧
      Option.map List.length (generateCircleUniformData halfRand 13 ⟨50, 4⟩ ⟨100, 100⟩) =
        some (CIRCLE_ELEMENTS * 13) := by
  constructor
  · exact (generateCircleUniformData_loop_bound halfRand ⟨50, 4⟩ ⟨100, 100⟩ 5).1
      (by decide)
  · obtain ⟨arr, h1, h2, -, -⟩ :=
      (generateCircleUniformData_loop_bound halfRand ⟨50, 4⟩ ⟨100, 100⟩ 13).2
        (by decide)
    rw [h1]
    simp [h2]

end CirclesJS
